import Mathlib

/-
Verification development for the weather-driven particle engine
(`src/engine.js` of lionheartchu/weather-system).

The engine is embedded shallowly:

* JS numbers on the paths where every value is a finite real are modelled
  by `ℝ` (the `Engine` namespace: vector utilities, `applyMapping`,
  `updateParticle`).
* To reason about *missing* object fields, a second, equally faithful
  transcription (`EngineJ` namespace) models a JS numeric value as
  `Option ℝ`, where `none` stands for a value that is not a finite real
  (an absent field read as `undefined`, or the `NaN` produced by
  arithmetic on it).  Fields that the source guards explicitly
  (`flowDirection || [0,0,0]`, the `projectToShape ? ... : ...` and
  `noiseFn ? ... : ...` conditionals, absent particle fields) are modelled
  with `Option` in both embeddings.
* `applyMapping` allocates a fresh object (`{ ...baseState }`) and then
  assigns fields of that fresh object only; to state the no-mutation
  (frame) property, a heap-level transcription `applyMappingRef` runs the
  same loop over an explicit store of weather-state objects, object
  references being store indices.
-/

namespace Engine

noncomputable section

/-- Three-component real vector, as the `[x, y, z]` arrays of the source. -/
structure Vec3 where
  x : ℝ
  y : ℝ
  z : ℝ

/-- Source `add` from `engine.js`: componentwise sum. -/
def add (a b : Vec3) : Vec3 :=
  ⟨a.x + b.x, a.y + b.y, a.z + b.z⟩

/-- Source `sub` from `engine.js`: componentwise difference. -/
def sub (a b : Vec3) : Vec3 :=
  ⟨a.x - b.x, a.y - b.y, a.z - b.z⟩

/-- Source `mulScalar` from `engine.js`. -/
def mulScalar (v : Vec3) (s : ℝ) : Vec3 :=
  ⟨v.x * s, v.y * s, v.z * s⟩

/-- Source `length` from `engine.js`: `Math.sqrt(v0*v0 + v1*v1 + v2*v2)`. -/
def length (v : Vec3) : ℝ :=
  Real.sqrt (v.x * v.x + v.y * v.y + v.z * v.z)

/-- Source `clampLength` from `engine.js`. -/
def clampLength (v : Vec3) (minLen maxLen : ℝ) : Vec3 :=
  let len := length v
  if len = 0 then v
  else
    let clamped := min (max len minLen) maxLen
    let scale := clamped / len
    mulScalar v scale

/-- Source `normalizeSafe` from `engine.js`: the zero vector when the length is zero. -/
def normalizeSafe (v : Vec3) : Vec3 :=
  let len := length v
  if len = 0 then ⟨0, 0, 0⟩
  else ⟨v.x / len, v.y / len, v.z / len⟩

/-- Source `mixVec` from `engine.js`: linear interpolation with weight `t` on `b`. -/
def mixVec (a b : Vec3) (t : ℝ) : Vec3 :=
  let s := 1 - t
  ⟨a.x * s + b.x * t, a.y * s + b.y * t, a.z * s + b.z * t⟩

/-- Source `clamp01` from `engine.js`: `Math.min(1, Math.max(0, x))`. -/
def clamp01 (x : ℝ) : ℝ :=
  min 1 (max 0 x)

/-- Weather-state schema of `createDefaultWeatherState` in `engine.js`.
All fields are numeric scalars except `flowDirection`, the one vector
field; `flowDirection` is `Option`-valued because the source guards its
use with `weatherState.flowDirection || [0, 0, 0]`. -/
structure WeatherState where
  deformFactor : ℝ
  shapeStrength : ℝ
  flowDirection : Option Vec3
  flowSpeed : ℝ
  turbulence : ℝ
  noiseScaleLarge : ℝ
  noiseScaleSmall : ℝ
  verticalBias : ℝ
  clusterStrength : ℝ
  spawnRate : ℝ
  lifeSpan : ℝ
  sizeMin : ℝ
  sizeMax : ℝ
  brightness : ℝ
  contrast : ℝ
  colorTemperature : ℝ
  softness : ℝ
  trailLength : ℝ

/-- Source `createDefaultWeatherState` from `engine.js`. -/
def createDefaultWeatherState : WeatherState where
  deformFactor := 0.0
  shapeStrength := 1.0
  flowDirection := some ⟨0, 0, 0⟩
  flowSpeed := 0.0
  turbulence := 0.0
  noiseScaleLarge := 1.0
  noiseScaleSmall := 1.0
  verticalBias := 0.0
  clusterStrength := 0.0
  spawnRate := 0.0
  lifeSpan := 1.0
  sizeMin := 1.0
  sizeMax := 1.0
  brightness := 1.0
  contrast := 1.0
  colorTemperature := 0.5
  softness := 0.5
  trailLength := 0.3

/-- Names of the numeric weather-state fields (every field except the
vector field `flowDirection`); these are the keys a mapping config can
override with a numeric value. -/
inductive NumField where
  | deformFactor
  | shapeStrength
  | flowSpeed
  | turbulence
  | noiseScaleLarge
  | noiseScaleSmall
  | verticalBias
  | clusterStrength
  | spawnRate
  | lifeSpan
  | sizeMin
  | sizeMax
  | brightness
  | contrast
  | colorTemperature
  | softness
  | trailLength
deriving DecidableEq

/-- Dynamic field read `ws[key]` for a numeric field name. -/
def getF (ws : WeatherState) : NumField → ℝ
  | .deformFactor => ws.deformFactor
  | .shapeStrength => ws.shapeStrength
  | .flowSpeed => ws.flowSpeed
  | .turbulence => ws.turbulence
  | .noiseScaleLarge => ws.noiseScaleLarge
  | .noiseScaleSmall => ws.noiseScaleSmall
  | .verticalBias => ws.verticalBias
  | .clusterStrength => ws.clusterStrength
  | .spawnRate => ws.spawnRate
  | .lifeSpan => ws.lifeSpan
  | .sizeMin => ws.sizeMin
  | .sizeMax => ws.sizeMax
  | .brightness => ws.brightness
  | .contrast => ws.contrast
  | .colorTemperature => ws.colorTemperature
  | .softness => ws.softness
  | .trailLength => ws.trailLength

/-- Dynamic field write `ws[key] = v` for a numeric field name. -/
def setF (ws : WeatherState) : NumField → ℝ → WeatherState
  | .deformFactor, v => { ws with deformFactor := v }
  | .shapeStrength, v => { ws with shapeStrength := v }
  | .flowSpeed, v => { ws with flowSpeed := v }
  | .turbulence, v => { ws with turbulence := v }
  | .noiseScaleLarge, v => { ws with noiseScaleLarge := v }
  | .noiseScaleSmall, v => { ws with noiseScaleSmall := v }
  | .verticalBias, v => { ws with verticalBias := v }
  | .clusterStrength, v => { ws with clusterStrength := v }
  | .spawnRate, v => { ws with spawnRate := v }
  | .lifeSpan, v => { ws with lifeSpan := v }
  | .sizeMin, v => { ws with sizeMin := v }
  | .sizeMax, v => { ws with sizeMax := v }
  | .brightness, v => { ws with brightness := v }
  | .contrast, v => { ws with contrast := v }
  | .colorTemperature, v => { ws with colorTemperature := v }
  | .softness, v => { ws with softness := v }
  | .trailLength, v => { ws with trailLength := v }

/-- All numeric field names, each exactly once (a JS object has each key
at most once, so the `for key in mappingConfig` loop visits each present
key exactly once). -/
def allNumFields : List NumField :=
  [.deformFactor, .shapeStrength, .flowSpeed, .turbulence, .noiseScaleLarge,
   .noiseScaleSmall, .verticalBias, .clusterStrength, .spawnRate, .lifeSpan,
   .sizeMin, .sizeMax, .brightness, .contrast, .colorTemperature, .softness,
   .trailLength]

/-- One entry `{ from: "...", min: x, max: y }` of a mapping config.
The source field `from` is a reserved word in Lean, hence `fromKey`. -/
structure MappingRule where
  fromKey : String
  min : ℝ
  max : ℝ

/-- Normalized driving inputs: a JS object keyed by strings, a key that is
absent reading as `undefined` (`none`). -/
def Inputs : Type := String → Option ℝ

/-- A mapping config: a JS object whose keys are (numeric) weather-state
field names; an absent key is `none`. -/
def MappingConfig : Type := NumField → Option MappingRule

/-- The body of the `for (const key in mappingConfig)` loop of
`applyMapping`, iterating over the listed field names and skipping the
ones not present in the config.  Since a JS object holds each key at most
once and every iteration reads and writes only its own field, iterating
over all field names in a fixed order is extensionally the loop of the
source. -/
def mappingLoop (inputs : Inputs) (config : MappingConfig) :
    List NumField → WeatherState → WeatherState
  | [], ws => ws
  | f :: fs, ws =>
    match config f with
    | none => mappingLoop inputs config fs ws
    | some cfg =>
      match inputs cfg.fromKey with
      | none => mappingLoop inputs config fs ws
      | some t =>
        mappingLoop inputs config fs
          (setF ws f (cfg.min + (cfg.max - cfg.min) * clamp01 t))

/-- Source `applyMapping` from `engine.js`: start from a shallow copy of
`baseState` (or a fresh default state when `baseState` is absent) and run
the config loop. -/
def applyMapping (normalizedInputs : Inputs) (mappingConfig : MappingConfig)
    (baseState : Option WeatherState) : WeatherState :=
  let ws := baseState.getD createDefaultWeatherState
  mappingLoop normalizedInputs mappingConfig allNumFields ws

/-- Particle record: position, velocity and life may be absent (the source
defends against uninitialized fields), and `tags` stands for the arbitrary
scene-specific extra fields (for example a particle "kind") that the core
never reads or writes. -/
structure Particle (τ : Type) where
  position : Option Vec3
  velocity : Option Vec3
  life : Option ℝ
  tags : τ

/-- Shape attraction term of `updateParticle` (`v_shape` in `engine.js`):
direction toward the projected shape point, weighted by
`shapeStrength * (1 - clamp01(deformFactor))`.  The projector is `Option`-
valued because the source guards it with `projectToShape ? ... : ...`. -/
def vShapeTerm (position : Vec3) (ws : WeatherState)
    (projectToShape : Option (Vec3 → Vec3)) : Vec3 :=
  let shapePos :=
    match projectToShape with
    | some f => f position
    | none => position
  let dirShape := sub shapePos position
  let dirShapeNorm := normalizeSafe dirShape
  let wShape := ws.shapeStrength * (1.0 - clamp01 ws.deformFactor)
  mulScalar dirShapeNorm wShape

/-- Source `updateParticle` from `engine.js`.  The in-place mutation of the
particle is modelled by returning the updated record; the fields the
source never assigns are carried over unchanged (`{ p with ... }`).
`time || 0` is the identity on every real number (`0 || 0` is `0`), so
`t` is `time` itself. -/
def updateParticle {τ : Type} (p : Particle τ) (dt : ℝ) (weatherState : WeatherState)
    (projectToShape : Option (Vec3 → Vec3)) (noiseFn : Option (Vec3 → ℝ → Vec3))
    (time : ℝ) : Particle τ :=
  -- fallback defaults for uninitialized fields
  let position := p.position.getD ⟨0, 0, 0⟩
  let velocity := p.velocity.getD ⟨0, 0, 0⟩
  let life := p.life.getD 1.0
  let t := time
  -- v_shape
  let v_shape := vShapeTerm position weatherState projectToShape
  -- v_large
  let posLarge := mulScalar position weatherState.noiseScaleLarge
  let nLarge :=
    match noiseFn with
    | some nf => nf posLarge t
    | none => (⟨0, 0, 0⟩ : Vec3)
  let v_large := mulScalar (normalizeSafe nLarge) weatherState.turbulence
  -- v_small
  let posSmall := mulScalar position weatherState.noiseScaleSmall
  let nSmall :=
    match noiseFn with
    | some nf => nf posSmall (t + 100.0)
    | none => (⟨0, 0, 0⟩ : Vec3)
  let v_small := mulScalar (normalizeSafe nSmall) (weatherState.turbulence * 0.5)
  -- v_direction
  let dir := normalizeSafe (weatherState.flowDirection.getD ⟨0, 0, 0⟩)
  let v_direction := mulScalar dir weatherState.flowSpeed
  -- v_vertical
  let v_vertical : Vec3 := ⟨0, -weatherState.verticalBias, 0⟩
  -- total target velocity
  let v0 := add v_shape (add v_large (add v_small (add v_direction v_vertical)))
  -- temporal smoothing, smoothingFactor = 0.2
  let v1 := mixVec velocity v0 0.2
  -- speed clamp
  let maxSpeed := 5.0
  let v := clampLength v1 0.0 maxSpeed
  { p with
    position := some (add position (mulScalar v dt))
    velocity := some v
    life := some (life - dt / max weatherState.lifeSpan 0.0001) }

/-- The same call viewed as a state transformer on the pair
(particle, weather state): the source assigns only to fields of `p` and
never to `weatherState`, so the weather-state component passes through. -/
def updateParticleCall {τ : Type} (s : Particle τ × WeatherState) (dt : ℝ)
    (projectToShape : Option (Vec3 → Vec3)) (noiseFn : Option (Vec3 → ℝ → Vec3))
    (time : ℝ) : Particle τ × WeatherState :=
  (updateParticle s.1 dt s.2 projectToShape noiseFn time, s.2)

/-- A store of weather-state objects; an object reference is an index. -/
abbrev WStore : Type := List WeatherState

/-- The write `ws[key] = v` performed through a reference into the store. -/
def writeField (s : WStore) (r : Nat) (f : NumField) (v : ℝ) : WStore :=
  match s[r]? with
  | none => s
  | some ws => s.set r (setF ws f v)

/-- The `applyMapping` config loop run at the heap level: every iteration
writes through the reference `r` of the freshly allocated copy. -/
def mappingLoopRef (inputs : Inputs) (config : MappingConfig) (r : Nat) :
    List NumField → WStore → WStore
  | [], s => s
  | f :: fs, s =>
    match config f with
    | none => mappingLoopRef inputs config r fs s
    | some cfg =>
      match inputs cfg.fromKey with
      | none => mappingLoopRef inputs config r fs s
      | some t =>
        mappingLoopRef inputs config r fs
          (writeField s r f (cfg.min + (cfg.max - cfg.min) * clamp01 t))

/-- Heap-level `applyMapping`: dereference the baseline, allocate a fresh
object holding a shallow copy (`{ ...baseState }` appends a new object to
the store), run the loop writing through the new reference only, and
return the new reference. -/
def applyMappingRef (inputs : Inputs) (config : MappingConfig) (rBase : Nat)
    (s : WStore) : Nat × WStore :=
  let base := (s[rBase]?).getD createDefaultWeatherState
  let rNew := s.length
  let s1 := s ++ [base]
  (rNew, mappingLoopRef inputs config rNew allNumFields s1)

end

end Engine

namespace EngineJ

noncomputable section

/-- A JS numeric value: `some a` is the finite real `a`; `none` is a value
that is not a finite real — an absent field read back as `undefined`, or
the `NaN` that arithmetic on such a value produces. -/
abbrev JNum : Type := Option ℝ

/-- JS `+`: `NaN` (and `undefined`) is absorbing. -/
def jadd : JNum → JNum → JNum
  | some a, some b => some (a + b)
  | some _, none => none
  | none, _ => none

/-- JS binary `-`. -/
def jsub : JNum → JNum → JNum
  | some a, some b => some (a - b)
  | some _, none => none
  | none, _ => none

/-- JS `*`. -/
def jmul : JNum → JNum → JNum
  | some a, some b => some (a * b)
  | some _, none => none
  | none, _ => none

/-- JS `/`.  A finite value divided by zero is `±Infinity` (or `NaN` for
`0/0`), never a finite real, hence `none`; the source guards every
division so that a zero divisor is never reached with finite operands. -/
def jdiv : JNum → JNum → JNum
  | some a, some b => if b = 0 then none else some (a / b)
  | some _, none => none
  | none, _ => none

/-- JS unary `-`. -/
def jneg : JNum → JNum
  | some a => some (-a)
  | none => none

/-- JS `Math.max`: returns `NaN` if any argument is `NaN` (or `undefined`). -/
def jmax : JNum → JNum → JNum
  | some a, some b => some (max a b)
  | some _, none => none
  | none, _ => none

/-- JS `Math.min`: returns `NaN` if any argument is `NaN` (or `undefined`). -/
def jmin : JNum → JNum → JNum
  | some a, some b => some (min a b)
  | some _, none => none
  | none, _ => none

/-- JS `Math.sqrt`: `NaN` on a negative or non-finite argument. -/
def jsqrt : JNum → JNum
  | some a => if a < 0 then none else some (Real.sqrt a)
  | none => none

/-- A vector whose components are JS numbers. -/
structure JVec where
  x : JNum
  y : JNum
  z : JNum

/-- The literal `[0, 0, 0]`. -/
def jzeroVec : JVec := ⟨some 0, some 0, some 0⟩

/-- Source `add` from `engine.js`, on JS numbers. -/
def jaddV (a b : JVec) : JVec :=
  ⟨jadd a.x b.x, jadd a.y b.y, jadd a.z b.z⟩

/-- Source `sub` from `engine.js`, on JS numbers. -/
def jsubV (a b : JVec) : JVec :=
  ⟨jsub a.x b.x, jsub a.y b.y, jsub a.z b.z⟩

/-- Source `mulScalar` from `engine.js`, on JS numbers. -/
def jmulScalarV (v : JVec) (s : JNum) : JVec :=
  ⟨jmul v.x s, jmul v.y s, jmul v.z s⟩

/-- Source `length` from `engine.js`, on JS numbers. -/
def jlength (v : JVec) : JNum :=
  jsqrt (jadd (jadd (jmul v.x v.x) (jmul v.y v.y)) (jmul v.z v.z))

/-- Source `clampLength` from `engine.js`, on JS numbers.  `len === 0` holds
exactly when `len` is the finite real `0` (`NaN === 0` is false). -/
def jclampLength (v : JVec) (minLen maxLen : JNum) : JVec :=
  let len := jlength v
  if len = some 0 then v
  else
    let clamped := jmin (jmax len minLen) maxLen
    let scale := jdiv clamped len
    jmulScalarV v scale

/-- Source `normalizeSafe` from `engine.js`, on JS numbers. -/
def jnormalizeSafe (v : JVec) : JVec :=
  let len := jlength v
  if len = some 0 then jzeroVec
  else ⟨jdiv v.x len, jdiv v.y len, jdiv v.z len⟩

/-- Source `mixVec` from `engine.js`, on JS numbers. -/
def jmixVec (a b : JVec) (t : JNum) : JVec :=
  let s := jsub (some 1) t
  ⟨jadd (jmul a.x s) (jmul b.x t),
   jadd (jmul a.y s) (jmul b.y t),
   jadd (jmul a.z s) (jmul b.z t)⟩

/-- Source `clamp01` from `engine.js`, on JS numbers. -/
def jclamp01 (x : JNum) : JNum :=
  jmin (some 1) (jmax (some 0) x)

/-- Weather state whose fields may each be absent: reading an absent
numeric field yields `undefined`, which any arithmetic turns into `NaN`,
so an absent numeric field is `none`.  `flowDirection` is either an array
or absent (`undefined`), the only field the source tests for presence. -/
structure WeatherStateJ where
  deformFactor : JNum
  shapeStrength : JNum
  flowDirection : Option JVec
  flowSpeed : JNum
  turbulence : JNum
  noiseScaleLarge : JNum
  noiseScaleSmall : JNum
  verticalBias : JNum
  clusterStrength : JNum
  spawnRate : JNum
  lifeSpan : JNum

/-- Source `createDefaultWeatherState`, restricted to the fields `updateParticle`
reads, every field present with its documented default. -/
def jDefaultWeatherState : WeatherStateJ where
  deformFactor := some 0.0
  shapeStrength := some 1.0
  flowDirection := some jzeroVec
  flowSpeed := some 0.0
  turbulence := some 0.0
  noiseScaleLarge := some 1.0
  noiseScaleSmall := some 1.0
  verticalBias := some 0.0
  clusterStrength := some 0.0
  spawnRate := some 0.0
  lifeSpan := some 1.0

/-- Particle record over JS numbers; an absent field (tested by the source
with `=== undefined` or by truthiness) is the outer `none`. -/
structure ParticleJ where
  position : Option JVec
  velocity : Option JVec
  life : Option JNum

/-- Source `updateParticle` from `engine.js`, transcribed over JS numbers so that
absent weather-state fields and the `NaN` they induce are represented.
`time || 0` maps `0`, `NaN` and `undefined` to `0` and any other finite
real to itself; with `time : JNum` that is `some (time.getD 0)`. -/
def updateParticleJ (p : ParticleJ) (dt : JNum) (weatherState : WeatherStateJ)
    (projectToShape : Option (JVec → JVec)) (noiseFn : Option (JVec → JNum → JVec))
    (time : JNum) : ParticleJ :=
  let position := p.position.getD jzeroVec
  let velocity := p.velocity.getD jzeroVec
  let life := p.life.getD (some 1.0)
  let t : JNum := some (time.getD 0)
  -- v_shape
  let shapePos :=
    match projectToShape with
    | some f => f position
    | none => position
  let dirShape := jsubV shapePos position
  let dirShapeNorm := jnormalizeSafe dirShape
  let wShape := jmul weatherState.shapeStrength
    (jsub (some 1.0) (jclamp01 weatherState.deformFactor))
  let v_shape := jmulScalarV dirShapeNorm wShape
  -- v_large
  let posLarge := jmulScalarV position weatherState.noiseScaleLarge
  let nLarge :=
    match noiseFn with
    | some nf => nf posLarge t
    | none => jzeroVec
  let v_large := jmulScalarV (jnormalizeSafe nLarge) weatherState.turbulence
  -- v_small
  let posSmall := jmulScalarV position weatherState.noiseScaleSmall
  let nSmall :=
    match noiseFn with
    | some nf => nf posSmall (jadd t (some 100.0))
    | none => jzeroVec
  let v_small := jmulScalarV (jnormalizeSafe nSmall)
    (jmul weatherState.turbulence (some 0.5))
  -- v_direction
  let dir := jnormalizeSafe (weatherState.flowDirection.getD jzeroVec)
  let v_direction := jmulScalarV dir weatherState.flowSpeed
  -- v_vertical
  let v_vertical : JVec := ⟨some 0, jneg weatherState.verticalBias, some 0⟩
  -- total, smoothing, clamp
  let v0 := jaddV v_shape (jaddV v_large (jaddV v_small (jaddV v_direction v_vertical)))
  let v1 := jmixVec velocity v0 (some 0.2)
  let v := jclampLength v1 (some 0.0) (some 5.0)
  { position := some (jaddV position (jmulScalarV v dt))
    velocity := some v
    life := some (jsub life (jdiv dt (jmax weatherState.lifeSpan (some 0.0001)))) }

end

end EngineJ

namespace Engine

noncomputable section

/-- Per-field result of one config-loop iteration: the overridden value
when the field has a rule whose source input is present, the old value
otherwise. -/
def fieldUpdate (inputs : Inputs) (config : MappingConfig) (f : NumField)
    (old : ℝ) : ℝ :=
  match config f with
  | none => old
  | some cfg =>
    match inputs cfg.fromKey with
    | none => old
    | some t => cfg.min + (cfg.max - cfg.min) * clamp01 t

/-- A particle at the origin with zero velocity and full life. -/
def pOrigin : Particle Unit where
  position := some ⟨0, 0, 0⟩
  velocity := some ⟨0, 0, 0⟩
  life := some 1.0
  tags := ()

/-- A particle at the origin with velocity `[3, 0, 0]`. -/
def pMoving : Particle Unit where
  position := some ⟨0, 0, 0⟩
  velocity := some ⟨3, 0, 0⟩
  life := some 1.0
  tags := ()

/-- Weather state of the end-to-end scenario: `verticalBias = 10`, all
other terms at their defaults (zero turbulence and flow). -/
def wsVertical : WeatherState :=
  { createDefaultWeatherState with verticalBias := 10.0 }

/-- Weather state with `lifeSpan = 2`. -/
def wsLife : WeatherState :=
  { createDefaultWeatherState with lifeSpan := 2.0 }

/-- Weather state with `deformFactor = 1` and a nonzero `shapeStrength`. -/
def wsDeformed : WeatherState :=
  { createDefaultWeatherState with deformFactor := 1, shapeStrength := 7 }

/-- Zero-force weather state: no turbulence, no flow, no vertical bias. -/
def wsStill : WeatherState :=
  { createDefaultWeatherState with turbulence := 0, flowSpeed := 0, verticalBias := 0 }

/-- Concrete driving inputs: only `cloudCover` is supplied. -/
def inputsW : Inputs :=
  fun s => if s = "cloudCover" then some 0.5 else none

/-- Concrete mapping config: one rule, driving `deformFactor` from
`cloudCover` over `[0, 10]`. -/
def configW : MappingConfig :=
  fun f => if f = NumField.deformFactor then some ⟨"cloudCover", 0, 10⟩ else none

/-- A one-object store holding the default weather state. -/
def wStoreW : WStore := [createDefaultWeatherState]

end

end Engine

namespace EngineJ

/-- A fully initialized particle at the origin, over JS numbers. -/
def pJ0 : ParticleJ where
  position := some jzeroVec
  velocity := some jzeroVec
  life := some (some 1.0)

end EngineJ

namespace Engine

theorem length_nonneg (v : Vec3) : 0 ≤ length v :=
  Real.sqrt_nonneg _

theorem length_mulScalar (v : Vec3) (s : ℝ) :
    length (mulScalar v s) = |s| * length v := by
  unfold length mulScalar
  dsimp only
  rw [show v.x * s * (v.x * s) + v.y * s * (v.y * s) + v.z * s * (v.z * s)
        = s ^ 2 * (v.x * v.x + v.y * v.y + v.z * v.z) by ring,
    Real.sqrt_mul (sq_nonneg s), Real.sqrt_sq_eq_abs]

theorem length_zeroVec : length (⟨0, 0, 0⟩ : Vec3) = 0 := by
  simp [length]

theorem normalizeSafe_zeroVec : normalizeSafe ⟨0, 0, 0⟩ = ⟨0, 0, 0⟩ := by
  simp [normalizeSafe, length_zeroVec]

theorem mulScalar_zero (v : Vec3) : mulScalar v 0 = ⟨0, 0, 0⟩ := by
  simp [mulScalar]

theorem mulScalar_one (v : Vec3) : mulScalar v 1 = v := by
  simp [mulScalar]

theorem mulScalar_mulScalar (v : Vec3) (a b : ℝ) :
    mulScalar (mulScalar v a) b = mulScalar v (a * b) := by
  simp [mulScalar, mul_assoc]

theorem add_zeroVec_left (v : Vec3) : add ⟨0, 0, 0⟩ v = v := by
  simp [add]

theorem add_zeroVec_right (v : Vec3) : add v ⟨0, 0, 0⟩ = v := by
  simp [add]

theorem sub_self_vec (v : Vec3) : sub v v = ⟨0, 0, 0⟩ := by
  simp [sub]

theorem length_clampLength_le (v : Vec3) : length (clampLength v 0.0 5.0) ≤ 5 := by
  unfold clampLength
  by_cases h : length v = 0
  · rw [if_pos h, h]
    norm_num
  · rw [if_neg h]
    have hpos : 0 < length v := lt_of_le_of_ne (length_nonneg v) (Ne.symm h)
    have hcl : (0 : ℝ) ≤ min (max (length v) 0.0) 5.0 :=
      le_min (le_trans (by norm_num) (le_max_right (length v) 0.0)) (by norm_num)
    rw [length_mulScalar, abs_of_nonneg (div_nonneg hcl hpos.le),
      div_mul_cancel₀ _ h]
    exact le_trans (min_le_right _ _) (by norm_num)

theorem clampLength_of_le (v : Vec3) (h : length v ≤ 5) :
    clampLength v 0.0 5.0 = v := by
  unfold clampLength
  by_cases h0 : length v = 0
  · rw [if_pos h0]
  · rw [if_neg h0]
    have hpos : 0 < length v := lt_of_le_of_ne (length_nonneg v) (Ne.symm h0)
    have hmax : max (length v) 0.0 = length v :=
      max_eq_left (le_trans (by norm_num) (length_nonneg v))
    have hmin : min (length v) 5.0 = length v := min_eq_left (by norm_num; exact h)
    dsimp only
    rw [hmax, hmin, div_self h0, mulScalar_one]

/-- C1: for every particle and every input to `updateParticle` (weather
state, time step, projector and noise field — all values finite reals in
this embedding), the velocity stored by one `updateParticle` call has
length at most `5.0`. -/
theorem updateParticle_speed_clamp {τ : Type} (p : Particle τ) (dt : ℝ)
    (ws : WeatherState) (proj : Option (Vec3 → Vec3))
    (noise : Option (Vec3 → ℝ → Vec3)) (time : ℝ) :
    length ((updateParticle p dt ws proj noise time).velocity.getD ⟨0, 0, 0⟩) ≤ 5.0 := by
  have h : (updateParticle p dt ws proj noise time).velocity
      = some (clampLength
          (mixVec (p.velocity.getD ⟨0, 0, 0⟩)
            (add (vShapeTerm (p.position.getD ⟨0, 0, 0⟩) ws proj)
              (add (mulScalar
                  (normalizeSafe
                    (match noise with
                     | some nf => nf (mulScalar (p.position.getD ⟨0, 0, 0⟩) ws.noiseScaleLarge) time
                     | none => ⟨0, 0, 0⟩)) ws.turbulence)
                (add (mulScalar
                    (normalizeSafe
                      (match noise with
                       | some nf => nf (mulScalar (p.position.getD ⟨0, 0, 0⟩) ws.noiseScaleSmall) (time + 100.0)
                       | none => ⟨0, 0, 0⟩)) (ws.turbulence * 0.5))
                  (add (mulScalar (normalizeSafe (ws.flowDirection.getD ⟨0, 0, 0⟩)) ws.flowSpeed)
                    ⟨0, -ws.verticalBias, 0⟩)))) 0.2)
          0.0 5.0) := rfl
  rw [h, Option.getD_some]
  exact le_trans (length_clampLength_le _) (by norm_num)

/-- C9: `normalizeSafe` maps the zero vector (and any vector of length
zero) to the zero vector rather than dividing; in the JS-number model the
result of normalizing `[0,0,0]` has all components finite (no `NaN`). -/
theorem normalizeSafe_zero_safe :
    (normalizeSafe ⟨0, 0, 0⟩ = ⟨0, 0, 0⟩)
    ∧ (∀ v : Vec3, length v = 0 → normalizeSafe v = ⟨0, 0, 0⟩)
    ∧ EngineJ.jnormalizeSafe EngineJ.jzeroVec = EngineJ.jzeroVec := by
  refine ⟨normalizeSafe_zeroVec, fun v hv => ?_, ?_⟩
  · unfold normalizeSafe
    rw [if_pos hv]
  · simp [EngineJ.jnormalizeSafe, EngineJ.jlength, EngineJ.jzeroVec,
      EngineJ.jadd, EngineJ.jmul, EngineJ.jsqrt]

/-- Witness for C9: the hypothesis `length v = 0` is discharged at the
concrete input `[0,0,0]`. -/
theorem normalizeSafe_zero_safe_witness :
    length (⟨0, 0, 0⟩ : Vec3) = 0 ∧ normalizeSafe ⟨0, 0, 0⟩ = ⟨0, 0, 0⟩ :=
  ⟨length_zeroVec, normalizeSafe_zero_safe.2.1 ⟨0, 0, 0⟩ length_zeroVec⟩

/-- C7: with `deformFactor = 1`, the shape term of `updateParticle` is the
zero vector for every position, projector and `shapeStrength`, because its
weight `shapeStrength * (1 - clamp01 deformFactor)` vanishes. -/
theorem shapeTerm_vanishes_at_full_deform (pos : Vec3) (ws : WeatherState)
    (proj : Option (Vec3 → Vec3)) (h : ws.deformFactor = 1.0) :
    vShapeTerm pos ws proj = ⟨0, 0, 0⟩ := by
  unfold vShapeTerm
  have hw : ws.shapeStrength * (1.0 - clamp01 ws.deformFactor) = 0 := by
    rw [h]
    norm_num [clamp01]
  dsimp only
  rw [hw, mulScalar_zero]

/-- Witness for C7: at `deformFactor = 1` and `shapeStrength = 7` the
shape term at a concrete position is zero. -/
theorem shapeTerm_vanishes_at_full_deform_witness :
    wsDeformed.deformFactor = 1.0
    ∧ vShapeTerm ⟨1, 2, 3⟩ wsDeformed none = ⟨0, 0, 0⟩ :=
  ⟨by norm_num [wsDeformed], shapeTerm_vanishes_at_full_deform ⟨1, 2, 3⟩ wsDeformed none
    (by norm_num [wsDeformed])⟩

theorem zero_mulScalar (s : ℝ) : mulScalar ⟨0, 0, 0⟩ s = ⟨0, 0, 0⟩ := by
  simp [mulScalar]

theorem vShapeTerm_none (pos : Vec3) (ws : WeatherState) :
    vShapeTerm pos ws none = ⟨0, 0, 0⟩ := by
  unfold vShapeTerm
  dsimp only
  rw [sub_self_vec, normalizeSafe_zeroVec, zero_mulScalar]

theorem vShapeTerm_idFun (pos : Vec3) (ws : WeatherState) :
    vShapeTerm pos ws (some fun x => x) = ⟨0, 0, 0⟩ := by
  unfold vShapeTerm
  dsimp only
  rw [sub_self_vec, normalizeSafe_zeroVec, zero_mulScalar]

/-- C4: particle at the origin with zero velocity, `verticalBias = 10`,
all other velocity terms zero, `dt = 0.1`: one call yields velocity
`[0, -2, 0]` (the 0.2-blend of target `[0, -10, 0]`, unchanged by the
length-5 clamp) and position `[0, -0.2, 0]`. -/
theorem vertical_bias_scenario :
    (updateParticle pOrigin 0.1 wsVertical none none 0).velocity = some ⟨0, -2, 0⟩
    ∧ (updateParticle pOrigin 0.1 wsVertical none none 0).position = some ⟨0, -0.2, 0⟩ := by
  have hs : Real.sqrt 4 = 2 := by
    rw [show (4 : ℝ) = 2 ^ 2 by norm_num, Real.sqrt_sq (by norm_num : (0 : ℝ) ≤ 2)]
  constructor <;>
  · norm_num [updateParticle, vShapeTerm, wsVertical, createDefaultWeatherState, pOrigin,
      add, sub, mulScalar, normalizeSafe, mixVec, clampLength, clamp01, length, hs,
      max_def, min_def]

/-- C10: an `updateParticle` call writes only the particle's `position`,
`velocity` and `life` (each always reassigned, which covers their
defensive initialization): the result differs from the input particle in
those three fields alone, scene-specific tags are untouched, and the
weather state, threaded through the call as read-only state, is returned
unchanged. -/
theorem updateParticle_frame (τ : Type) (p : Particle τ) (dt : ℝ)
    (ws : WeatherState) (proj : Option (Vec3 → Vec3))
    (noise : Option (Vec3 → ℝ → Vec3)) (time : ℝ) :
    (∃ np nv nl, updateParticle p dt ws proj noise time
        = { p with position := some np, velocity := some nv, life := some nl })
    ∧ (updateParticle p dt ws proj noise time).tags = p.tags
    ∧ (updateParticleCall (p, ws) dt proj noise time).2 = ws :=
  ⟨⟨_, _, _, rfl⟩, rfl, rfl⟩

/-- C8: every `updateParticle` call sets `life` to the old life (defaulted
to `1.0` when absent) minus exactly `dt / max lifeSpan 0.0001`; in
particular from `life = 1`, `lifeSpan = 2`, `dt = 1` one call leaves
`life = 0.5`. -/
theorem life_decrement :
    (∀ (τ : Type) (p : Particle τ) (dt : ℝ) (ws : WeatherState)
        (proj : Option (Vec3 → Vec3)) (noise : Option (Vec3 → ℝ → Vec3)) (time : ℝ),
      (updateParticle p dt ws proj noise time).life
        = some (p.life.getD 1.0 - dt / max ws.lifeSpan 0.0001))
    ∧ (updateParticle pOrigin 1.0 wsLife none none 0).life = some 0.5 := by
  constructor
  · intro τ p dt ws proj noise time
    rfl
  · show some ((1.0 : ℝ) - 1.0 / max (2.0 : ℝ) 0.0001) = some 0.5
    rw [show max (2.0 : ℝ) 0.0001 = 2.0 from max_eq_left (by norm_num)]
    norm_num

end Engine

namespace EngineJ

/-- C2 (amended): `updateParticle` is total (the embedding is a total
function) and an absent `flowDirection` is defaulted by the
`flowDirection || [0,0,0]` guard: the call behaves exactly as if
`flowDirection` were its documented default `[0, 0, 0]`, for every
particle, time step, weather state, projector and noise field. -/
theorem updateParticleJ_flowDirection_default (p : ParticleJ) (dt : JNum)
    (ws : WeatherStateJ) (proj : Option (JVec → JVec))
    (noise : Option (JVec → JNum → JVec)) (time : JNum) :
    updateParticleJ p dt { ws with flowDirection := none } proj noise time
      = updateParticleJ p dt { ws with flowDirection := some jzeroVec } proj noise time := rfl

/-- Counterexample to C2 as stated: an absent numeric field is NOT
defaulted.  With `verticalBias` absent, `-weatherState.verticalBias` is
`NaN` and the call's result differs from the result with
`verticalBias` set to its documented default `0`. -/
theorem updateParticleJ_missing_verticalBias_not_defaulted :
    updateParticleJ pJ0 (some 1) { jDefaultWeatherState with verticalBias := none }
        none none (some 0)
      ≠ updateParticleJ pJ0 (some 1) jDefaultWeatherState none none (some 0) := by
  have hL : (updateParticleJ pJ0 (some 1) { jDefaultWeatherState with verticalBias := none }
      none none (some 0)).velocity = some ⟨none, none, none⟩ := by
    norm_num [updateParticleJ, pJ0, jDefaultWeatherState, jzeroVec, jaddV, jsubV,
      jmulScalarV, jlength, jclampLength, jnormalizeSafe, jmixVec, jclamp01,
      jadd, jsub, jmul, jdiv, jneg, jmax, jmin, jsqrt]
    exact fun hc => Option.noConfusion hc
  have hR : (updateParticleJ pJ0 (some 1) jDefaultWeatherState none none
      (some 0)).velocity = some ⟨some 0, some 0, some 0⟩ := by
    norm_num [updateParticleJ, pJ0, jDefaultWeatherState, jzeroVec, jaddV, jsubV,
      jmulScalarV, jlength, jclampLength, jnormalizeSafe, jmixVec, jclamp01,
      jadd, jsub, jmul, jdiv, jneg, jmax, jmin, jsqrt]
  intro h
  rw [h, hR] at hL
  simp at hL

end EngineJ

namespace Engine

theorem mixVec_zero_right (u : Vec3) : mixVec u ⟨0, 0, 0⟩ 0.2 = mulScalar u 0.8 := by
  simp only [mixVec, mulScalar, Vec3.mk.injEq]
  norm_num

theorem add_add_mulScalar (a v : Vec3) (s r : ℝ) :
    add (add a (mulScalar v s)) (mulScalar v r) = add a (mulScalar v (s + r)) := by
  simp only [add, mulScalar, Vec3.mk.injEq]
  refine ⟨by ring, by ring, by ring⟩

theorem length_mulScalar_pow_le (v : Vec3) (n : ℕ) (h : length v ≤ 5) :
    length (mulScalar v ((0.8 : ℝ) ^ n)) ≤ 5 := by
  rw [length_mulScalar, abs_of_nonneg (pow_nonneg (by norm_num) n)]
  have h1 : (0.8 : ℝ) ^ n ≤ 1 := pow_le_one₀ (by norm_num) (by norm_num)
  nlinarith [length_nonneg v]

theorem step_zero_field {τ : Type} (q : Particle τ) (dt tm : ℝ) (ws : WeatherState)
    (noise : Option (Vec3 → ℝ → Vec3)) (w ps : Vec3)
    (hv : q.velocity = some w) (hp : q.position = some ps)
    (hT : ws.turbulence = 0) (hF : ws.flowSpeed = 0) (hV : ws.verticalBias = 0)
    (hsp : length w ≤ 5) :
    updateParticle q dt ws (some fun x => x) noise tm
      = { q with
          position := some (add ps (mulScalar (mulScalar w 0.8) dt))
          velocity := some (mulScalar w 0.8)
          life := some (q.life.getD 1.0 - dt / max ws.lifeSpan 0.0001) } := by
  have hb : length (mulScalar w 0.8) ≤ 5 := by
    have := length_mulScalar_pow_le w 1 hsp
    rwa [pow_one] at this
  simp only [updateParticle]
  rw [hv, hp]
  simp only [Option.getD_some]
  rw [vShapeTerm_idFun, hT, hF, hV]
  simp only [zero_mul, mulScalar_zero, neg_zero]
  simp only [add_zeroVec_left, add_zeroVec_right]
  rw [mixVec_zero_right, clampLength_of_le _ hb]

theorem iterate_zero_field {τ : Type} (dt tm : ℝ) (ws : WeatherState)
    (noise : Option (Vec3 → ℝ → Vec3)) (p : Particle τ) (v ps : Vec3)
    (hv : p.velocity = some v) (hp : p.position = some ps)
    (hT : ws.turbulence = 0) (hF : ws.flowSpeed = 0) (hV : ws.verticalBias = 0)
    (hsp : length v ≤ 5) :
    ∀ n : ℕ,
      ((fun r => updateParticle r dt ws (some fun x => x) noise tm)^[n] p).velocity
        = some (mulScalar v ((0.8 : ℝ) ^ n))
      ∧ ((fun r => updateParticle r dt ws (some fun x => x) noise tm)^[n] p).position
        = some (add ps (mulScalar v (dt * (4 * (1 - (0.8 : ℝ) ^ n))))) := by
  intro n
  induction n with
  | zero =>
    constructor
    · rw [Function.iterate_zero_apply, hv, pow_zero, mulScalar_one]
    · rw [Function.iterate_zero_apply, hp, pow_zero]
      norm_num [mulScalar_zero, add_zeroVec_right]
  | succ n ih =>
    obtain ⟨ihv, ihp⟩ := ih
    rw [Function.iterate_succ_apply', step_zero_field _ dt tm ws noise _ _ ihv ihp hT hF hV
      (length_mulScalar_pow_le v n hsp)]
    constructor
    · show some (mulScalar (mulScalar v ((0.8:ℝ) ^ n)) 0.8) = _
      rw [mulScalar_mulScalar, ← pow_succ]
    · show some (add (add ps (mulScalar v (dt * (4 * (1 - (0.8:ℝ) ^ n)))))
          (mulScalar (mulScalar (mulScalar v ((0.8:ℝ) ^ n)) 0.8) dt)) = _
      rw [mulScalar_mulScalar, mulScalar_mulScalar, add_add_mulScalar,
        show dt * (4 * (1 - (0.8:ℝ) ^ n)) + (0.8:ℝ) ^ n * (0.8 * dt)
          = dt * (4 * (1 - (0.8:ℝ) ^ (n + 1))) by rw [pow_succ]; ring]

/-- C6: with the identity projector and zero turbulence, flow and vertical
bias, one `updateParticle` call scales the velocity by exactly `0.8`
whenever the prior speed is at most `5`; iterating, the velocity after `n`
calls is `0.8 ^ n` times the initial one and the position follows the
explicit bounded geometric sum, so the speed tends to `0` and the position
stabilizes — the smoothing/clamp pipeline injects no energy. -/
theorem zero_force_no_energy_injection {τ : Type} (p : Particle τ) (dt tm : ℝ)
    (ws : WeatherState) (noise : Option (Vec3 → ℝ → Vec3)) (v ps : Vec3)
    (hv : p.velocity = some v) (hp : p.position = some ps)
    (hT : ws.turbulence = 0) (hF : ws.flowSpeed = 0) (hV : ws.verticalBias = 0)
    (hsp : length v ≤ 5) :
    ((updateParticle p dt ws (some fun x => x) noise tm).velocity = some (mulScalar v 0.8)
      ∧ length ((updateParticle p dt ws (some fun x => x) noise tm).velocity.getD ⟨0, 0, 0⟩)
          = 0.8 * length v)
    ∧ (∀ n : ℕ,
        ((fun r => updateParticle r dt ws (some fun x => x) noise tm)^[n] p).velocity
          = some (mulScalar v ((0.8 : ℝ) ^ n))
        ∧ ((fun r => updateParticle r dt ws (some fun x => x) noise tm)^[n] p).position
          = some (add ps (mulScalar v (dt * (4 * (1 - (0.8 : ℝ) ^ n))))))
    ∧ Filter.Tendsto
        (fun n : ℕ =>
          length (((fun r => updateParticle r dt ws (some fun x => x) noise tm)^[n] p).velocity.getD ⟨0, 0, 0⟩))
        Filter.atTop (nhds 0) := by
  have hiter := iterate_zero_field dt tm ws noise p v ps hv hp hT hF hV hsp
  have hstep := step_zero_field p dt tm ws noise v ps hv hp hT hF hV hsp
  refine ⟨⟨?_, ?_⟩, hiter, ?_⟩
  · rw [hstep]
  · rw [hstep]
    show length (mulScalar v 0.8) = 0.8 * length v
    rw [length_mulScalar, abs_of_nonneg (by norm_num : (0:ℝ) ≤ 0.8)]
  · have hfun : (fun n : ℕ =>
        length (((fun r => updateParticle r dt ws (some fun x => x) noise tm)^[n] p).velocity.getD ⟨0, 0, 0⟩))
        = fun n : ℕ => (0.8 : ℝ) ^ n * length v := by
      funext n
      rw [(hiter n).1, Option.getD_some, length_mulScalar,
        abs_of_nonneg (pow_nonneg (by norm_num) n)]
    rw [hfun]
    simpa using
      (tendsto_pow_atTop_nhds_zero_of_lt_one (by norm_num : (0:ℝ) ≤ 0.8)
        (by norm_num)).mul_const (length v)

/-- Witness for C6 at a concrete particle with speed 3 and a concrete
zero-force weather state. -/
theorem zero_force_no_energy_injection_witness :
    length (⟨3, 0, 0⟩ : Vec3) ≤ 5
    ∧ (updateParticle pMoving 1 wsStill (some fun x => x) none 0).velocity
        = some (mulScalar ⟨3, 0, 0⟩ 0.8) := by
  have h9 : Real.sqrt 9 = 3 := by
    rw [show (9 : ℝ) = 3 ^ 2 by norm_num, Real.sqrt_sq (by norm_num : (0:ℝ) ≤ 3)]
  have h3 : length (⟨3, 0, 0⟩ : Vec3) ≤ 5 := by
    simp only [length]
    norm_num [h9]
  exact ⟨h3,
    (zero_force_no_energy_injection pMoving 1 0 wsStill none ⟨3, 0, 0⟩ ⟨0, 0, 0⟩
      rfl rfl rfl rfl rfl h3).1.1⟩

end Engine

namespace Engine

theorem getF_setF_self (ws : WeatherState) (f : NumField) (v : ℝ) :
    getF (setF ws f v) f = v := by
  cases f <;> rfl

theorem getF_setF_ne (ws : WeatherState) {f g : NumField} (v : ℝ) (h : f ≠ g) :
    getF (setF ws g v) f = getF ws f := by
  cases f <;> cases g <;> first | exact absurd rfl h | rfl

theorem flowDirection_setF (ws : WeatherState) (f : NumField) (v : ℝ) :
    (setF ws f v).flowDirection = ws.flowDirection := by
  cases f <;> rfl

theorem mem_allNumFields (f : NumField) : f ∈ allNumFields := by
  cases f <;> simp [allNumFields]

theorem allNumFields_nodup : allNumFields.Nodup := by
  decide

theorem getF_mappingLoop_not_mem (inputs : Inputs) (config : MappingConfig) :
    ∀ (fs : List NumField) (ws : WeatherState) (f : NumField), f ∉ fs →
      getF (mappingLoop inputs config fs ws) f = getF ws f := by
  intro fs
  induction fs with
  | nil => intro ws f _; rfl
  | cons g gs ih =>
    intro ws f hf
    have hne : f ≠ g := fun e => hf (by rw [e]; exact List.mem_cons_self g gs)
    have hfs : f ∉ gs := fun m => hf (List.mem_cons_of_mem g m)
    cases hc : config g with
    | none => simp only [mappingLoop, hc]; exact ih ws f hfs
    | some cfg =>
      cases hi : inputs cfg.fromKey with
      | none => simp only [mappingLoop, hc, hi]; exact ih ws f hfs
      | some t =>
        simp only [mappingLoop, hc, hi]
        rw [ih _ f hfs, getF_setF_ne _ _ hne]

theorem flowDirection_mappingLoop (inputs : Inputs) (config : MappingConfig) :
    ∀ (fs : List NumField) (ws : WeatherState),
      (mappingLoop inputs config fs ws).flowDirection = ws.flowDirection := by
  intro fs
  induction fs with
  | nil => intro ws; rfl
  | cons g gs ih =>
    intro ws
    cases hc : config g with
    | none => simp only [mappingLoop, hc]; exact ih ws
    | some cfg =>
      cases hi : inputs cfg.fromKey with
      | none => simp only [mappingLoop, hc, hi]; exact ih ws
      | some t =>
        simp only [mappingLoop, hc, hi]
        rw [ih, flowDirection_setF]

theorem getF_mappingLoop_mem (inputs : Inputs) (config : MappingConfig) :
    ∀ (fs : List NumField) (ws : WeatherState) (f : NumField), f ∈ fs → fs.Nodup →
      getF (mappingLoop inputs config fs ws) f
        = fieldUpdate inputs config f (getF ws f) := by
  intro fs
  induction fs with
  | nil => intro ws f hf _; exact absurd hf (List.not_mem_nil f)
  | cons g gs ih =>
    intro ws f hf hnd
    rw [List.nodup_cons] at hnd
    obtain ⟨hg, hnd'⟩ := hnd
    rcases List.mem_cons.mp hf with he | hm
    · subst he
      cases hc : config f with
      | none =>
        simp only [mappingLoop, hc]
        rw [getF_mappingLoop_not_mem inputs config gs ws f hg]
        simp [fieldUpdate, hc]
      | some cfg =>
        cases hi : inputs cfg.fromKey with
        | none =>
          simp only [mappingLoop, hc, hi]
          rw [getF_mappingLoop_not_mem inputs config gs ws f hg]
          simp [fieldUpdate, hc, hi]
        | some t =>
          simp only [mappingLoop, hc, hi]
          rw [getF_mappingLoop_not_mem inputs config gs _ f hg, getF_setF_self]
          simp [fieldUpdate, hc, hi]
    · have hne : f ≠ g := fun e => hg (e ▸ hm)
      cases hc : config g with
      | none => simp only [mappingLoop, hc]; exact ih ws f hm hnd'
      | some cfg =>
        cases hi : inputs cfg.fromKey with
        | none => simp only [mappingLoop, hc, hi]; exact ih ws f hm hnd'
        | some t =>
          simp only [mappingLoop, hc, hi]
          rw [ih _ f hm hnd', getF_setF_ne _ _ hne]

theorem weatherState_eq_of_fields {a b : WeatherState}
    (h : ∀ f, getF a f = getF b f) (hfd : a.flowDirection = b.flowDirection) :
    a = b := by
  cases a
  cases b
  simp only [WeatherState.mk.injEq]
  exact ⟨h .deformFactor, h .shapeStrength, hfd, h .flowSpeed, h .turbulence,
    h .noiseScaleLarge, h .noiseScaleSmall, h .verticalBias, h .clusterStrength,
    h .spawnRate, h .lifeSpan, h .sizeMin, h .sizeMax, h .brightness,
    h .contrast, h .colorTemperature, h .softness, h .trailLength⟩

/-- C3: `applyMapping` sets each configured field with a present source
input to `min + (max - min) * clamp01 input`, leaves configured fields
with an absent input and unconfigured fields (including `flowDirection`)
at their baseline values, is the identity under an empty config, and
starts from the documented default state when the baseline is absent. -/
theorem applyMapping_spec (inputs : Inputs) (config : MappingConfig) :
    (∀ (b : Option WeatherState) (f : NumField) (cfg : MappingRule) (t : ℝ),
        config f = some cfg → inputs cfg.fromKey = some t →
        getF (applyMapping inputs config b) f
          = cfg.min + (cfg.max - cfg.min) * clamp01 t)
    ∧ (∀ (base : WeatherState) (f : NumField) (cfg : MappingRule),
        config f = some cfg → inputs cfg.fromKey = none →
        getF (applyMapping inputs config (some base)) f = getF base f)
    ∧ (∀ (base : WeatherState) (f : NumField),
        config f = none →
        getF (applyMapping inputs config (some base)) f = getF base f)
    ∧ (∀ base : WeatherState,
        (applyMapping inputs config (some base)).flowDirection = base.flowDirection)
    ∧ (∀ base : WeatherState, applyMapping inputs (fun _ => none) (some base) = base)
    ∧ applyMapping inputs config none
        = applyMapping inputs config (some createDefaultWeatherState) := by
  refine ⟨?_, ?_, ?_, ?_, ?_, rfl⟩
  · intro b f cfg t hc hi
    unfold applyMapping
    rw [getF_mappingLoop_mem inputs config allNumFields _ f (mem_allNumFields f)
      allNumFields_nodup]
    simp [fieldUpdate, hc, hi]
  · intro base f cfg hc hi
    unfold applyMapping
    rw [getF_mappingLoop_mem inputs config allNumFields _ f (mem_allNumFields f)
      allNumFields_nodup]
    simp [fieldUpdate, hc, hi]
  · intro base f hc
    unfold applyMapping
    rw [getF_mappingLoop_mem inputs config allNumFields _ f (mem_allNumFields f)
      allNumFields_nodup]
    simp [fieldUpdate, hc]
  · intro base
    unfold applyMapping
    rw [flowDirection_mappingLoop]
    rfl
  · intro base
    unfold applyMapping
    apply weatherState_eq_of_fields
    · intro f
      rw [getF_mappingLoop_mem inputs (fun _ => none) allNumFields _ f
        (mem_allNumFields f) allNumFields_nodup]
      simp [fieldUpdate]
    · rw [flowDirection_mappingLoop]
      rfl

/-- Witness for C3: a concrete config driving `deformFactor` from
`cloudCover` over `[0, 10]` with input `0.5`. -/
theorem applyMapping_spec_witness :
    configW NumField.deformFactor = some ⟨"cloudCover", 0, 10⟩
    ∧ inputsW "cloudCover" = some 0.5
    ∧ getF (applyMapping inputsW configW (some createDefaultWeatherState))
        NumField.deformFactor = 0 + (10 - 0) * clamp01 0.5 :=
  ⟨rfl, rfl,
    (applyMapping_spec inputsW configW).1 (some createDefaultWeatherState)
      NumField.deformFactor ⟨"cloudCover", 0, 10⟩ 0.5 rfl rfl⟩

end Engine

namespace Engine

theorem mappingLoopRef_frame (inputs : Inputs) (config : MappingConfig) (r : Nat) :
    ∀ (fs : List NumField) (s : WStore) (i : Nat), i ≠ r →
      (mappingLoopRef inputs config r fs s)[i]? = s[i]? := by
  intro fs
  induction fs with
  | nil => intro s i _; rfl
  | cons g gs ih =>
    intro s i hi
    cases hc : config g with
    | none => simp only [mappingLoopRef, hc]; exact ih s i hi
    | some cfg =>
      cases hin : inputs cfg.fromKey with
      | none => simp only [mappingLoopRef, hc, hin]; exact ih s i hi
      | some t =>
        simp only [mappingLoopRef, hc, hin]
        rw [ih _ i hi]
        unfold writeField
        cases hr : s[r]? with
        | none => rfl
        | some ws => exact List.getElem?_set_ne (Ne.symm hi)

theorem mappingLoopRef_self (inputs : Inputs) (config : MappingConfig) (r : Nat) :
    ∀ (fs : List NumField) (s : WStore) (ws : WeatherState), s[r]? = some ws →
      (mappingLoopRef inputs config r fs s)[r]?
        = some (mappingLoop inputs config fs ws) := by
  intro fs
  induction fs with
  | nil => intro s ws h; exact h
  | cons g gs ih =>
    intro s ws h
    have hr : r < s.length := by
      by_contra hnot
      rw [List.getElem?_eq_none (Nat.le_of_not_lt hnot)] at h
      exact Option.noConfusion h
    cases hc : config g with
    | none => simp only [mappingLoopRef, mappingLoop, hc]; exact ih s ws h
    | some cfg =>
      cases hin : inputs cfg.fromKey with
      | none => simp only [mappingLoopRef, mappingLoop, hc, hin]; exact ih s ws h
      | some t =>
        simp only [mappingLoopRef, mappingLoop, hc, hin]
        apply ih
        unfold writeField
        rw [h]
        simp [List.getElem?_set_self, hr]

/-- C5: `applyMapping` run at the heap level never mutates the baseline
object: it returns a fresh reference (distinct from the baseline's), the
baseline slot holds the same state after the call as before, and the new
reference holds exactly `applyMapping` of the baseline. -/
theorem applyMapping_no_mutation (inputs : Inputs) (config : MappingConfig)
    (s : WStore) (r : Nat) (base : WeatherState) (h : s[r]? = some base) :
    ((applyMappingRef inputs config r s).2)[r]? = some base
    ∧ (applyMappingRef inputs config r s).1 ≠ r
    ∧ ((applyMappingRef inputs config r s).2)[(applyMappingRef inputs config r s).1]?
        = some (applyMapping inputs config (some base)) := by
  have hr : r < s.length := by
    by_contra hnot
    rw [List.getElem?_eq_none (Nat.le_of_not_lt hnot)] at h
    exact Option.noConfusion h
  have hbase : (s[r]?).getD createDefaultWeatherState = base := by
    rw [h]
    rfl
  refine ⟨?_, ?_, ?_⟩
  · show (mappingLoopRef inputs config s.length allNumFields
        (s ++ [(s[r]?).getD createDefaultWeatherState]))[r]? = some base
    rw [mappingLoopRef_frame inputs config s.length allNumFields _ r (Nat.ne_of_lt hr),
      List.getElem?_append, if_pos hr]
    exact h
  · exact (Nat.ne_of_lt hr).symm
  · show (mappingLoopRef inputs config s.length allNumFields
        (s ++ [(s[r]?).getD createDefaultWeatherState]))[s.length]?
      = some (applyMapping inputs config (some base))
    have happ : (s ++ [(s[r]?).getD createDefaultWeatherState])[s.length]?
        = some base := by
      rw [hbase]
      simp
    rw [mappingLoopRef_self inputs config s.length allNumFields _ base happ]
    rfl

/-- Witness for C5: the one-object store holding the default state, with
the baseline reference `0`. -/
theorem applyMapping_no_mutation_witness :
    wStoreW[0]? = some createDefaultWeatherState
    ∧ (((applyMappingRef inputsW configW 0 wStoreW).2)[0]?
          = some createDefaultWeatherState
        ∧ (applyMappingRef inputsW configW 0 wStoreW).1 ≠ 0
        ∧ ((applyMappingRef inputsW configW 0 wStoreW).2)[(applyMappingRef inputsW configW 0 wStoreW).1]?
          = some (applyMapping inputsW configW (some createDefaultWeatherState))) :=
  ⟨rfl, applyMapping_no_mutation inputsW configW wStoreW 0 createDefaultWeatherState rfl⟩

end Engine
